import Mathlib

/-!
Verification of the profile-resolution engine of set-tab-color.

This file gives a shallow embedding of the Go functions in `config.go`
(`extractProfile`, `isProfileMap`, `overlayProfile`,
`getProfileWithTerminalInfo`) and `terminal.go` (`matchesTerminalName`,
`getProcessAncestorChain`), and proves the stated properties about them.

Modelling choices, stated once:
* A decoded TOML value (Go `interface{}`) is modelled by `GoVal`: a string,
  a table (association list with distinct keys, mirroring a Go map), or
  `other` for any value that is neither (numbers, booleans, arrays, ...).
* File I/O is abstracted away: the decoded `profiles` map is a parameter.
* `strings.ToLower` is modelled by `String.toLower` (ASCII case folding;
  all candidate names in the program are ASCII).
* The process-ancestry walk is modelled over an abstract process table
  `Int → Option ProcEntry`, with a fuel parameter bounding the walk: the
  real OS process tree is finite and acyclic, so a large enough fuel
  reproduces the Go loop exactly.
-/

namespace SetTabColor

/-- A decoded TOML / Go `interface{}` value, as far as the resolver
inspects it: a string, a nested table, or anything else. -/
inductive GoVal where
  | str : String → GoVal
  | table : List (String × GoVal) → GoVal
  | other : GoVal

/-- Profile record from config.go: a color profile with optional colors and
preset; the Go zero value of each field is the empty string. -/
structure Profile where
  Tab : String
  Foreground : String
  Background : String
  Preset : String
deriving DecidableEq, Repr

/-- The Go zero value `Profile{}`: all fields empty. -/
def emptyProfile : Profile := ⟨"", "", "", ""⟩

/-- Terminal kinds from terminal.go (closed set of constants). -/
inductive TerminalType where
  | unknown
  | iterm2
  | etterminal
  | ssh
  | tmux
  | vscode
deriving DecidableEq, Repr

/-- The string value of each `TerminalType` constant (terminal.go:14-19),
used as the nested-table key in the resolver. -/
def terminalKey : TerminalType → String
  | .unknown => "unknown"
  | .iterm2 => "iterm2"
  | .etterminal => "etterminal"
  | .ssh => "ssh"
  | .tmux => "tmux"
  | .vscode => "vscode"

/-- Modelled from the spec: `ShellType` and its constants are declared in a
repository file not present under src/ (only used by config.go and the
tests); the closed enumeration `Unknown, Bash, Zsh, Fish, Tcsh, Csh, Ksh,
Sh` is taken from the spec and the test files. -/
inductive ShellType where
  | unknown
  | bash
  | zsh
  | fish
  | tcsh
  | csh
  | ksh
  | sh
deriving DecidableEq, Repr

/-- Modelled from the spec: the canonical string of each shell kind
(lowercase name), used as the nested-table key; the tests pair
`ShellTypeZsh` with the `[profiles.dev.zsh]` table. -/
def shellKey : ShellType → String
  | .unknown => "unknown"
  | .bash => "bash"
  | .zsh => "zsh"
  | .fish => "fish"
  | .tcsh => "tcsh"
  | .csh => "csh"
  | .ksh => "ksh"
  | .sh => "sh"

/-- Modelled from the spec: `TerminalShellInfo` is declared in a repository
file not present under src/; its field shape (`Terminals []TerminalType`,
`Shell ShellType`, `Valid bool`) is forced by its uses in config.go and the
tests. -/
structure TerminalShellInfo where
  Terminals : List TerminalType
  Shell : ShellType
  Valid : Bool

/-- Key lookup in a decoded table (Go map indexing). -/
def lookupKey (m : List (String × GoVal)) (k : String) : Option GoVal :=
  match m with
  | [] => none
  | (k', v) :: rest => if k' = k then some v else lookupKey rest k

/-- Embedding of `isProfileMap` (config.go:124-131): a map is profile-like when some
key is `tab`, `fg`, `bg` or `preset` (values are not inspected). -/
def isProfileMap (m : List (String × GoVal)) : Bool :=
  m.any fun kv => kv.1 = "tab" || kv.1 = "fg" || kv.1 = "bg" || kv.1 = "preset"

/-- The per-field extraction step of `extractProfile`: a present key keeps
its value only when that value is a string; otherwise the field stays at
the zero value `""`. -/
def getStr (m : List (String × GoVal)) (k : String) : String :=
  match lookupKey m k with
  | some (.str s) => s
  | _ => ""

/-- Embedding of `extractProfile` (config.go:83-121): fails when the value is not a
map or has none of the recognized keys; otherwise it builds a `Profile`
taking each of `tab`/`fg`/`bg`/`preset` only when present as a string. -/
def extractProfile : GoVal → Except String Profile
  | .table m =>
    if isProfileMap m then
      .ok { Tab := getStr m "tab", Foreground := getStr m "fg",
            Background := getStr m "bg", Preset := getStr m "preset" }
    else
      .error "not a profile map"
  | .str _ => .error "expected map[string]interface, got string"
  | .other => .error "expected map[string]interface, got other"

/-- Embedding of `overlayProfile` (config.go:247-265): start from `base`, then take
each non-empty field of `overlay`. -/
def overlayProfile (base overlay : Profile) : Profile :=
  { Tab := if overlay.Tab ≠ "" then overlay.Tab else base.Tab
    Foreground := if overlay.Foreground ≠ "" then overlay.Foreground else base.Foreground
    Background := if overlay.Background ≠ "" then overlay.Background else base.Background
    Preset := if overlay.Preset ≠ "" then overlay.Preset else base.Preset }

/-- The errors `getProfileWithTerminalInfo` can return
(config.go:143 and config.go:150). -/
inductive ResolveError where
  | profileNotFound : String → ResolveError
  | invalidProfile : String → ResolveError
deriving DecidableEq, Repr

/-- The message text of each resolver error, as formatted by
`fmt.Errorf` in config.go (`%q` rendered as plain double quotes). -/
def renderError : ResolveError → String
  | .profileNotFound n => "profile \x22" ++ n ++ "\x22 not found"
  | .invalidProfile n => "profile \x22" ++ n ++ "\x22 is not a valid profile"

/-- The shell-overlay step of `getProfileWithTerminalInfo`
(config.go:192-207): when the shell is known and the profile map has an
entry under its key that extracts to a profile, overlay it; in every other
case the result is unchanged. -/
def shellPhase (profileMap : List (String × GoVal)) (result : Profile)
    (shell : ShellType) : Profile :=
  if shell ≠ ShellType.unknown then
    match lookupKey profileMap (shellKey shell) with
    | some shellData =>
      match extractProfile shellData with
      | .ok shellProfile => overlayProfile result shellProfile
      | .error _ => result
    | none => result
  else result

/-- The terminal-overlay loop of `getProfileWithTerminalInfo`
(config.go:216-232): walk the detected terminals in order; the first one
whose key is present and extracts to a profile is overlaid and the loop
breaks; entries that are absent or fail to extract are passed over. -/
def applyTerminals (profileMap : List (String × GoVal)) (result : Profile) :
    List TerminalType → Profile
  | [] => result
  | t :: rest =>
    match lookupKey profileMap (terminalKey t) with
    | some terminalData =>
      match extractProfile terminalData with
      | .ok terminalProfile => overlayProfile result terminalProfile
      | .error _ => applyTerminals profileMap result rest
    | none => applyTerminals profileMap result rest

/-- Embedding of `getProfileWithTerminalInfo` (config.go:134-244), with the loaded
`profiles` map passed as a value (file loading abstracted away) and the
verbose logging dropped (it writes to stderr and never changes the
result). The final `.str`/`.other` arms embed config.go:163-170, the
re-match of the base data as a map; they are unreachable because
`extractProfile` only succeeds on tables. -/
def getProfileWithTerminalInfo (profiles : List (String × GoVal))
    (profileName : String) (terminalInfo : TerminalShellInfo) :
    Except ResolveError Profile :=
  match lookupKey profiles profileName with
  | none => .error (.profileNotFound profileName)
  | some baseData =>
    match extractProfile baseData with
    | .error _ => .error (.invalidProfile profileName)
    | .ok baseProfile =>
      match baseData with
      | .table profileMap =>
        .ok (applyTerminals profileMap
                (shellPhase profileMap baseProfile terminalInfo.Shell)
                terminalInfo.Terminals)
      | _ => .ok baseProfile

/-- Spec-side characterization used to compare against the loop in
`applyTerminals`: the sub-profile of the first terminal in the list whose
nested entry exists and extracts to a profile, if any. -/
def firstApplicableTerminal (profileMap : List (String × GoVal)) :
    List TerminalType → Option Profile
  | [] => none
  | t :: rest =>
    match lookupKey profileMap (terminalKey t) with
    | some d =>
      match extractProfile d with
      | .ok p => some p
      | .error _ => firstApplicableTerminal profileMap rest
    | none => firstApplicableTerminal profileMap rest

/-- Embedding of `strings.HasPrefix(s, pre)`, on the character sequences of the two
strings. -/
def strStartsWith (s pre : String) : Bool :=
  pre.data.isPrefixOf s.data

/-- Embedding of `matchesTerminalName` (terminal.go:86-108): optionally lowercase
both sides, then accept an exact match or a prefix match with a trailing
space (`strings.HasPrefix(name, terminal+" ")`). -/
def matchesTerminalName (processName terminalName : String)
    (caseSensitive : Bool) : Bool :=
  let name := if caseSensitive then processName else processName.toLower
  let terminal := if caseSensitive then terminalName else terminalName.toLower
  if name = terminal then true
  else if strStartsWith name (terminal ++ " ") then true
  else false

/-- What one process lookup can report: `Name()` and `Ppid()` each either
succeed or fail (`none`). -/
structure ProcEntry where
  name : Option String
  ppid : Option Int

/-- The walk loop of `getProcessAncestorChain` (terminal.go:160-180),
started at an already-resolved process: record the name (stop on a name
failure), stop when `Ppid()` fails or reports a pid ≤ 1, stop when the
parent cannot be resolved, else continue from the parent. `fuel` bounds
the number of iterations; the OS process tree is finite and acyclic, so a
fuel at least the tree depth reproduces the Go loop. -/
def ancestorChainFrom (table : Int → Option ProcEntry) :
    Nat → ProcEntry → List String
  | 0, _ => []
  | fuel + 1, entry =>
    match entry.name with
    | none => []
    | some nm =>
      nm :: (match entry.ppid with
        | none => []
        | some p =>
          if p ≤ 1 then []
          else
            match table p with
            | none => []
            | some parentEntry => ancestorChainFrom table fuel parentEntry)

/-- Embedding of `getProcessAncestorChain` (terminal.go:152-183), over an abstract
process table: resolving the current pid itself can fail (the only `err`
return); otherwise the walk starts at the current process's own entry. -/
def getProcessAncestorChain (table : Int → Option ProcEntry)
    (currentPid : Int) (fuel : Nat) : Option (List String) :=
  match table currentPid with
  | none => none
  | some entry => some (ancestorChainFrom table fuel entry)

/-- Spec-side predicate for the amended C4: an entry is interpretable as a
profile node exactly when it is a table with at least one recognized key. -/
def isProfileNodeVal : GoVal → Bool
  | .table m => isProfileMap m
  | _ => false

/-- Shared helper: the terminal-overlay loop applies exactly the
sub-profile of the first terminal with an existing, extractable nested
entry, and leaves the result alone when there is none. -/
theorem applyTerminals_eq_firstApplicable
    (pm : List (String × GoVal)) (r : Profile) (ts : List TerminalType) :
    applyTerminals pm r ts =
      match firstApplicableTerminal pm ts with
      | some tp => overlayProfile r tp
      | none => r := by
  induction ts with
  | nil => rfl
  | cons t rest ih =>
    cases h : lookupKey pm (terminalKey t) with
    | none =>
      simp only [applyTerminals, firstApplicableTerminal, h]
      exact ih
    | some d =>
      cases he : extractProfile d with
      | ok p => simp only [applyTerminals, firstApplicableTerminal, h, he]
      | error e =>
        simp only [applyTerminals, firstApplicableTerminal, h, he]
        exact ih

/-- Concrete store for the fallback scenario: profile `work` with base
fields and nested `etterminal` and `iterm2` sub-tables. -/
def fallbackMap : List (String × GoVal) :=
  [("tab", .str "blue"), ("fg", .str "white"),
   ("etterminal", .table [("tab", .str "green"), ("fg", .str "yellow")]),
   ("iterm2", .table [("tab", .str "purple")])]

/-- The one-profile store holding `fallbackMap` under the name `work`. -/
def fallbackStore : List (String × GoVal) := [("work", .table fallbackMap)]

/-- Detection result with terminals `[Tmux, ETTerminal, ITerm2]`. -/
def fallbackInfo : TerminalShellInfo := ⟨[.tmux, .etterminal, .iterm2], .zsh, true⟩

/-- Claim C1: for a present profile with a valid base, resolution overlays
exactly the sub-profile of the first terminal in the detection list whose
nested entry exists and extracts to a profile; when there is none, the
result stays whatever base plus shell overlay produced; overlays are never
merged across terminals. -/
theorem getProfileWithTerminalInfo_first_applicable_terminal
    (profiles pm : List (String × GoVal)) (name : String)
    (info : TerminalShellInfo) (base : Profile)
    (hfind : lookupKey profiles name = some (.table pm))
    (hbase : extractProfile (.table pm) = .ok base) :
    getProfileWithTerminalInfo profiles name info =
      .ok (match firstApplicableTerminal pm info.Terminals with
           | some tp => overlayProfile (shellPhase pm base info.Shell) tp
           | none => shellPhase pm base info.Shell) := by
  simp only [getProfileWithTerminalInfo, hfind, hbase]
  rw [applyTerminals_eq_firstApplicable]

/-- Claim C1, witness: on the fallback store with terminals
`[tmux, etterminal, iterm2]` where only `etterminal` and `iterm2` have
nested entries, exactly the `etterminal` sub-profile is overlaid. -/
theorem getProfileWithTerminalInfo_first_applicable_terminal_witness :
    lookupKey fallbackStore "work" = some (.table fallbackMap)
    ∧ extractProfile (.table fallbackMap) = .ok ⟨"blue", "white", "", ""⟩
    ∧ firstApplicableTerminal fallbackMap fallbackInfo.Terminals =
        some ⟨"green", "yellow", "", ""⟩
    ∧ getProfileWithTerminalInfo fallbackStore "work" fallbackInfo =
        .ok (overlayProfile
              (shellPhase fallbackMap ⟨"blue", "white", "", ""⟩ fallbackInfo.Shell)
              ⟨"green", "yellow", "", ""⟩) :=
  ⟨rfl, rfl, rfl,
    (getProfileWithTerminalInfo_first_applicable_terminal fallbackStore fallbackMap
      "work" fallbackInfo ⟨"blue", "white", "", ""⟩ rfl rfl).trans rfl⟩

/-- Claim C2: when both a shell sub-profile and an applicable terminal
sub-profile exist, resolution is `overlay (overlay base shell) terminal`,
so a field set by the terminal layer reflects it, a field set only by the
shell layer reflects the shell, and all other fields keep the base. -/
theorem getProfileWithTerminalInfo_shell_then_terminal
    (profiles pm : List (String × GoVal)) (name : String)
    (info : TerminalShellInfo) (base : Profile) (sd : GoVal)
    (sp tp : Profile)
    (hfind : lookupKey profiles name = some (.table pm))
    (hbase : extractProfile (.table pm) = .ok base)
    (hsh : info.Shell ≠ ShellType.unknown)
    (hsd : lookupKey pm (shellKey info.Shell) = some sd)
    (hsp : extractProfile sd = .ok sp)
    (htp : firstApplicableTerminal pm info.Terminals = some tp) :
    getProfileWithTerminalInfo profiles name info =
      .ok (overlayProfile (overlayProfile base sp) tp)
    ∧ (overlayProfile (overlayProfile base sp) tp).Tab =
        (if tp.Tab ≠ "" then tp.Tab else if sp.Tab ≠ "" then sp.Tab else base.Tab)
    ∧ (overlayProfile (overlayProfile base sp) tp).Foreground =
        (if tp.Foreground ≠ "" then tp.Foreground
         else if sp.Foreground ≠ "" then sp.Foreground else base.Foreground)
    ∧ (overlayProfile (overlayProfile base sp) tp).Background =
        (if tp.Background ≠ "" then tp.Background
         else if sp.Background ≠ "" then sp.Background else base.Background)
    ∧ (overlayProfile (overlayProfile base sp) tp).Preset =
        (if tp.Preset ≠ "" then tp.Preset
         else if sp.Preset ≠ "" then sp.Preset else base.Preset) := by
  refine ⟨?_, rfl, rfl, rfl, rfl⟩
  simp only [getProfileWithTerminalInfo, hfind, hbase]
  rw [applyTerminals_eq_firstApplicable]
  simp only [htp, shellPhase, if_pos hsh, hsd, hsp]

/-- Concrete store for the two-layer scenario: profile `dev` with a `zsh`
shell sub-table and an `iterm2` terminal sub-table. -/
def devMap : List (String × GoVal) :=
  [("tab", .str "blue"), ("fg", .str "white"), ("bg", .str "black"),
   ("zsh", .table [("tab", .str "cyan"), ("fg", .str "yellow")]),
   ("iterm2", .table [("tab", .str "purple"), ("bg", .str "darkgray")])]

/-- The one-profile store holding `devMap` under the name `dev`. -/
def devStore : List (String × GoVal) := [("dev", .table devMap)]

/-- Detection result with shell `zsh` and terminals `[iterm2]`. -/
def devInfo : TerminalShellInfo := ⟨[.iterm2], .zsh, true⟩

/-- Claim C2, witness: shell `zsh` plus terminal `iterm2` on the `dev`
store resolve to tab from the terminal, fg from the shell, bg from the
terminal. -/
theorem getProfileWithTerminalInfo_shell_then_terminal_witness :
    lookupKey devStore "dev" = some (.table devMap)
    ∧ extractProfile (.table devMap) = .ok ⟨"blue", "white", "black", ""⟩
    ∧ devInfo.Shell ≠ ShellType.unknown
    ∧ lookupKey devMap (shellKey devInfo.Shell) =
        some (.table [("tab", .str "cyan"), ("fg", .str "yellow")])
    ∧ extractProfile (.table [("tab", .str "cyan"), ("fg", .str "yellow")]) =
        .ok ⟨"cyan", "yellow", "", ""⟩
    ∧ firstApplicableTerminal devMap devInfo.Terminals =
        some ⟨"purple", "", "darkgray", ""⟩
    ∧ getProfileWithTerminalInfo devStore "dev" devInfo =
        .ok ⟨"purple", "yellow", "darkgray", ""⟩ :=
  ⟨rfl, rfl, by decide, rfl, rfl, rfl,
    ((getProfileWithTerminalInfo_shell_then_terminal devStore devMap "dev" devInfo
      ⟨"blue", "white", "black", ""⟩
      (.table [("tab", .str "cyan"), ("fg", .str "yellow")])
      ⟨"cyan", "yellow", "", ""⟩ ⟨"purple", "", "darkgray", ""⟩
      rfl rfl (by decide) rfl rfl rfl).1).trans rfl⟩

/-- Claim C3, counterexample: a process name that starts with the
candidate immediately followed by a colon is a colon-boundary input, yet
`matchesTerminalName` rejects it — the claimed colon form does not exist
in the matcher. -/
theorem matchesTerminalName_colon_counterexample :
    strStartsWith "sshd: subrole" ("sshd" ++ ":") = true
    ∧ matchesTerminalName "sshd: subrole" "sshd" true = false := by
  refine ⟨rfl, ?_⟩
  decide

/-- Claim C3 (amended — the colon form removed): after lowercasing both
sides when `caseSensitive` is false, the matcher accepts exactly equality
or a prefix followed by a single space — in particular it is not a
substring match: `"sshd server"` matches `"sshd"`, while `"mysshd"` and
`"sshdserver"` do not. -/
theorem matchesTerminalName_characterization :
    (∀ (pn cn : String) (cs : Bool),
      matchesTerminalName pn cn cs = true ↔
        ((if cs then pn else pn.toLower) = (if cs then cn else cn.toLower)
          ∨ strStartsWith (if cs then pn else pn.toLower)
              ((if cs then cn else cn.toLower) ++ " ") = true))
    ∧ matchesTerminalName "sshd server" "sshd" true = true
    ∧ matchesTerminalName "mysshd" "sshd" true = false
    ∧ matchesTerminalName "sshdserver" "sshd" true = false := by
  refine ⟨?_, rfl, ?_, ?_⟩
  · intro pn cn cs
    simp only [matchesTerminalName]
    split_ifs <;> simp_all
  · decide
  · decide

/-- Concrete store for C4: the entry `work` is a pure nesting container —
it has a nested `etterminal` sub-table and none of the recognized keys. -/
def containerMap : List (String × GoVal) :=
  [("etterminal", .table [("tab", .str "green")])]

/-- The one-profile store holding the nesting container under `work`. -/
def containerStore : List (String × GoVal) := [("work", .table containerMap)]

/-- Detection result with no terminals and an unknown shell. -/
def plainInfo : TerminalShellInfo := ⟨[], .unknown, false⟩

/-- Claim C4, counterexample: a top-level entry that is a pure nesting
container (a nested sub-table present, no direct color/preset fields)
DOES fail with `InvalidProfile`, contrary to the claim. -/
theorem nesting_container_invalidProfile_counterexample :
    isProfileMap containerMap = false
    ∧ lookupKey containerMap "etterminal" =
        some (.table [("tab", .str "green")])
    ∧ getProfileWithTerminalInfo containerStore "work" plainInfo =
        .error (.invalidProfile "work") :=
  ⟨rfl, rfl, rfl⟩

/-- Claim C4 (amended): for a present entry, resolution fails with
`InvalidProfile` exactly when the entry cannot be read as a profile
fragment — it is not a table, or it has none of the recognized keys
`tab`/`fg`/`bg`/`preset` — regardless of whether it is a nesting
container. -/
theorem invalidProfile_iff_not_profile_node
    (profiles : List (String × GoVal)) (name : String)
    (info : TerminalShellInfo) (data : GoVal)
    (hfind : lookupKey profiles name = some data) :
    getProfileWithTerminalInfo profiles name info = .error (.invalidProfile name)
      ↔ isProfileNodeVal data = false := by
  simp only [getProfileWithTerminalInfo, hfind]
  cases data with
  | str s => simp [extractProfile, isProfileNodeVal]
  | other => simp [extractProfile, isProfileNodeVal]
  | table m =>
    by_cases h : isProfileMap m
    · simp [extractProfile, h, isProfileNodeVal]
    · simp [extractProfile, h, isProfileNodeVal]

/-- Claim C4, witness: the amended equivalence instantiated on the
nesting-container store. -/
theorem invalidProfile_iff_not_profile_node_witness :
    lookupKey containerStore "work" = some (.table containerMap)
    ∧ (getProfileWithTerminalInfo containerStore "work" plainInfo =
         .error (.invalidProfile "work")
       ↔ isProfileNodeVal (.table containerMap) = false) :=
  ⟨rfl, invalidProfile_iff_not_profile_node containerStore "work" plainInfo
          (.table containerMap) rfl⟩

/-- Claim C5: resolution returns `ProfileNotFound` exactly when the name
is absent from the store's top level, its message contains the requested
name, and for a present entry with a valid base profile resolution always
succeeds — no missing nested key ever raises an error. -/
theorem profileNotFound_iff_absent
    (profiles : List (String × GoVal)) (name : String)
    (info : TerminalShellInfo) :
    (getProfileWithTerminalInfo profiles name info = .error (.profileNotFound name)
      ↔ lookupKey profiles name = none)
    ∧ (∃ s t, renderError (.profileNotFound name) = s ++ name ++ t)
    ∧ (∀ data base, lookupKey profiles name = some data →
        extractProfile data = .ok base →
        ∃ p, getProfileWithTerminalInfo profiles name info = .ok p) := by
  refine ⟨?_, ⟨"profile \x22", "\x22 not found", rfl⟩, ?_⟩
  · cases h : lookupKey profiles name with
    | none => simp [getProfileWithTerminalInfo, h]
    | some data =>
      simp only [getProfileWithTerminalInfo, h]
      cases he : extractProfile data with
      | error e => simp
      | ok base => cases data <;> simp
  · intro data base h1 h2
    simp only [getProfileWithTerminalInfo, h1, h2]
    cases data with
    | table pm => exact ⟨_, rfl⟩
    | str s => exact ⟨base, rfl⟩
    | other => exact ⟨base, rfl⟩

/-- One-profile store used by the C5 witness. -/
def presentStore : List (String × GoVal) :=
  [("present", .table [("tab", .str "green")])]

/-- Claim C5, witness: `nonexistent` fails with `ProfileNotFound` whose
message mentions it, while the present profile resolves without error
even though no nested sub-entry exists. -/
theorem profileNotFound_iff_absent_witness :
    getProfileWithTerminalInfo presentStore "nonexistent" plainInfo =
      .error (.profileNotFound "nonexistent")
    ∧ (∃ s t, renderError (.profileNotFound "nonexistent") =
        s ++ "nonexistent" ++ t)
    ∧ (∃ p, getProfileWithTerminalInfo presentStore "present" plainInfo = .ok p) :=
  ⟨(profileNotFound_iff_absent presentStore "nonexistent" plainInfo).1.mpr rfl,
   (profileNotFound_iff_absent presentStore "nonexistent" plainInfo).2.1,
   (profileNotFound_iff_absent presentStore "present" plainInfo).2.2
     (.table [("tab", .str "green")]) ⟨"green", "", "", ""⟩ rfl rfl⟩

/-- Claim C6: `overlayProfile` is associative, and the empty profile is a
two-sided identity for it. -/
theorem overlayProfile_assoc_and_identity (a b c p : Profile) :
    overlayProfile (overlayProfile a b) c = overlayProfile a (overlayProfile b c)
    ∧ overlayProfile p emptyProfile = p
    ∧ overlayProfile emptyProfile p = p := by
  obtain ⟨a1, a2, a3, a4⟩ := a
  obtain ⟨b1, b2, b3, b4⟩ := b
  obtain ⟨c1, c2, c3, c4⟩ := c
  obtain ⟨p1, p2, p3, p4⟩ := p
  refine ⟨?_, ?_, ?_⟩ <;>
    · simp only [overlayProfile, emptyProfile, Profile.mk.injEq]
      refine ⟨?_, ?_, ?_, ?_⟩ <;> (split_ifs <;> simp_all)

/-- Two-process table: pid 5 (the current process, named `self`) has
parent pid 3 (named `parent`), whose own parent is pid 1. -/
def twoProcTable : Int → Option ProcEntry := fun p =>
  if p = 5 then some ⟨some "self", some 3⟩
  else if p = 3 then some ⟨some "parent", some 1⟩
  else none

/-- Claim C7, counterexample: the chain for pid 5 is `["self", "parent"]`
— its first entry is the current process's own name, not the parent's,
so the current process is not excluded from the chain. -/
theorem ancestorChain_includes_self_counterexample :
    getProcessAncestorChain twoProcTable 5 10 = some ["self", "parent"]
    ∧ "self" ≠ "parent" := by
  refine ⟨rfl, ?_⟩
  decide

/-- Claim C7 (amended — the walk includes the current process): the first
entry of the chain is the current process's own name, and the remaining
entries continue the walk from its parent, nearest ancestor first. -/
theorem ancestorChain_starts_with_current_process
    (table : Int → Option ProcEntry) (pid : Int) (fuel : Nat)
    (entry : ProcEntry) (nm : String)
    (htab : table pid = some entry) (hname : entry.name = some nm) :
    getProcessAncestorChain table pid (fuel + 1) =
      some (nm :: (match entry.ppid with
        | none => []
        | some p =>
          if p ≤ 1 then []
          else
            match table p with
            | none => []
            | some parentEntry => ancestorChainFrom table fuel parentEntry)) := by
  simp only [getProcessAncestorChain, htab, ancestorChainFrom, hname]

/-- Claim C7, witness: the amended statement instantiated on the
two-process table — `self` heads the chain and `parent` follows. -/
theorem ancestorChain_starts_with_current_process_witness :
    twoProcTable 5 = some (⟨some "self", some 3⟩ : ProcEntry)
    ∧ (⟨some "self", some 3⟩ : ProcEntry).name = some "self"
    ∧ getProcessAncestorChain twoProcTable 5 (9 + 1) =
        some ("self" :: ["parent"]) :=
  ⟨rfl, rfl,
    (ancestorChain_starts_with_current_process twoProcTable 5 9
      ⟨some "self", some 3⟩ "self" rfl rfl).trans rfl⟩

/-- Claim C8: the resolver's result never depends on the detection
result's `Valid` flag — same terminals and shell give the same answer for
both flag values. -/
theorem getProfileWithTerminalInfo_ignores_valid
    (profiles : List (String × GoVal)) (name : String)
    (ts : List TerminalType) (shl : ShellType) (v1 v2 : Bool) :
    getProfileWithTerminalInfo profiles name ⟨ts, shl, v1⟩ =
      getProfileWithTerminalInfo profiles name ⟨ts, shl, v2⟩ := rfl

/-- Claim C9: a nested entry that exists under a detected terminal's key
but does not extract to a profile is skipped — it is not the first hit
and the search continues with the remaining terminals. -/
theorem applyTerminals_skips_unextractable_entry
    (pm : List (String × GoVal)) (r : Profile) (t : TerminalType)
    (rest : List TerminalType) (d : GoVal) (e : String)
    (hlook : lookupKey pm (terminalKey t) = some d)
    (hbad : extractProfile d = .error e) :
    applyTerminals pm r (t :: rest) = applyTerminals pm r rest := by
  simp only [applyTerminals, hlook, hbad]

/-- Profile map for the C9 witness: `etterminal` exists but holds no
recognized key, `iterm2` holds a valid sub-profile. -/
def skipMap : List (String × GoVal) :=
  [("etterminal", .table [("note", .str "x")]),
   ("iterm2", .table [("tab", .str "purple")])]

/-- Claim C9, witness: the unextractable `etterminal` entry is skipped
and the search falls through to `iterm2`, whose sub-profile applies. -/
theorem applyTerminals_skips_unextractable_entry_witness :
    lookupKey skipMap (terminalKey .etterminal) =
      some (.table [("note", .str "x")])
    ∧ extractProfile (.table [("note", .str "x")]) = .error "not a profile map"
    ∧ applyTerminals skipMap emptyProfile [.etterminal, .iterm2] =
        applyTerminals skipMap emptyProfile [.iterm2]
    ∧ applyTerminals skipMap emptyProfile [.etterminal, .iterm2] =
        ⟨"purple", "", "", ""⟩ :=
  ⟨rfl, rfl,
    applyTerminals_skips_unextractable_entry skipMap emptyProfile .etterminal
      [.iterm2] (.table [("note", .str "x")]) "not a profile map" rfl rfl,
    rfl⟩

/-- Claim C10: when a table has at least one recognized key, extraction
succeeds, and any recognized key whose value is not a string leaves the
corresponding field empty instead of causing an error. -/
theorem extractProfile_ignores_nonstring_values
    (m : List (String × GoVal)) (hpm : isProfileMap m = true) :
    ∃ p, extractProfile (.table m) = .ok p
      ∧ (∀ v, lookupKey m "tab" = some v → (∀ s, v ≠ .str s) → p.Tab = "")
      ∧ (∀ v, lookupKey m "fg" = some v → (∀ s, v ≠ .str s) → p.Foreground = "")
      ∧ (∀ v, lookupKey m "bg" = some v → (∀ s, v ≠ .str s) → p.Background = "")
      ∧ (∀ v, lookupKey m "preset" = some v → (∀ s, v ≠ .str s) → p.Preset = "") := by
  refine ⟨⟨getStr m "tab", getStr m "fg", getStr m "bg", getStr m "preset"⟩,
    by simp [extractProfile, hpm], ?_, ?_, ?_, ?_⟩ <;>
    · intro v hv hns
      cases v with
      | str s => exact absurd rfl (hns s)
      | table l => simp [getStr, hv]
      | other => simp [getStr, hv]

/-- Table for the C10 witness: `tab` is present with a non-string value,
`fg` with a string value. -/
def nonStringMap : List (String × GoVal) :=
  [("tab", GoVal.other), ("fg", .str "white")]

/-- Claim C10, witness: extraction succeeds on the table whose `tab`
value is not a string, and the `Tab` field comes out empty. -/
theorem extractProfile_ignores_nonstring_values_witness :
    isProfileMap nonStringMap = true
    ∧ ∃ p, extractProfile (.table nonStringMap) = .ok p ∧ p.Tab = "" := by
  refine ⟨rfl, ?_⟩
  obtain ⟨p, hp, htab, _, _, _⟩ :=
    extractProfile_ignores_nonstring_values nonStringMap rfl
  exact ⟨p, hp, htab GoVal.other rfl (fun s hs => nomatch hs)⟩

end SetTabColor
